import Mathlib

/-!
Verification of the feature-enrichment and filter/aggregate core of the
bike-sharing dashboard (`app.py`).

The embedding models the pandas dataframe as a `List` of records.  A raw
row carries the parsed timestamp (pandas `to_datetime` succeeds on every
loaded row; `dt.hour` is always in `[0, 23]`, modelled as `Fin 24`), the
season/weather/workingday codes and the rental counts.  Enrichment
(`load_data`) adds the derived columns `year`, `month`, `day_of_week`,
`hour`, `season_name` and `day_period` exactly as the source computes
them.  The sidebar widget state is a `FilterSpec`; the sequential pandas
filters are `df_filtered`; the KPI aggregates are `total_rides`,
`mean_rides` (pandas `.mean()` of an empty series is `NaN`, modelled as
`none`) and `peak_hour` (pandas `groupby("hour")[target].mean().idxmax()`
with the `"-"` sentinel for an empty subset modelled as `none`).
-/

namespace BikeDashboard

/-- A parsed `datetime` value as produced by `pd.to_datetime`: the calendar
fields that the source extracts.  The clock hour of a timestamp is always in
`[0, 23]`, so it is a `Fin 24`. -/
structure Datetime where
  year : Nat
  month : Nat
  day : Nat
  hour : Fin 24
deriving DecidableEq, Repr

/-- One row of `train.csv` after timestamp parsing: the columns of the raw
dataset (`datetime, season, holiday, workingday, weather, temp, atemp,
humidity, windspeed, casual, registered, count`). -/
structure RawRecord where
  datetime : Datetime
  season : Nat
  holiday : Nat
  workingday : Nat
  weather : Nat
  temp : ℚ
  atemp : ℚ
  humidity : ℚ
  windspeed : ℚ
  casual : Nat
  registered : Nat
  count : Nat
deriving DecidableEq, Repr

/-- A raw row together with the derived columns that `load_data` adds. -/
structure EnrichedRecord extends RawRecord where
  year : Nat
  month : Nat
  day_of_week : String
  hour : Fin 24
  season_name : Option String
  day_period : String
deriving DecidableEq, Repr

/-- The fixed season lookup `{1: "spring", 2: "summer", 3: "fall", 4: "winter"}`;
`pandas.Series.map` yields `NaN` (here `none`) for any code outside the dict. -/
def season_map (code : Nat) : Option String :=
  if code = 1 then some "spring"
  else if code = 2 then some "summer"
  else if code = 3 then some "fall"
  else if code = 4 then some "winter"
  else none

/-- The nested `get_day_period` helper from `load_data`. -/
def get_day_period (h : Nat) : String :=
  if h < 6 then "night"
  else if h < 12 then "morning"
  else if h < 18 then "afternoon"
  else "evening"

/-- The weekday name that `Series.dt.day_name()` produces, computed from the
proleptic Gregorian calendar date by Zeller's congruence. -/
def day_name_of (y m d : Nat) : String :=
  let y' := if m ≤ 2 then y - 1 else y
  let m' := if m ≤ 2 then m + 12 else m
  let k := y' % 100
  let j := y' / 100
  let z := (d + (13 * (m' + 1)) / 5 + k + k / 4 + j / 4 + 5 * j) % 7
  ["Saturday", "Sunday", "Monday", "Tuesday",
    "Wednesday", "Thursday", "Friday"].getD z "Saturday"

/-- The per-row effect of `load_data`: extract `year`, `month`, `day_of_week`
and `hour` from the timestamp, map the season code through `season_map`, and
bucket the derived hour through `get_day_period`. -/
def enrichRecord (r : RawRecord) : EnrichedRecord :=
  { toRawRecord := r
    year := r.datetime.year
    month := r.datetime.month
    day_of_week := day_name_of r.datetime.year r.datetime.month r.datetime.day
    hour := r.datetime.hour
    season_name := season_map r.season
    day_period := get_day_period r.datetime.hour.val }

/-- `load_data` after the CSV read and timestamp parse: the pure
column-derivation applied to every row, in order. -/
def load_data (raws : List RawRecord) : List EnrichedRecord :=
  raws.map enrichRecord

/-- The sidebar `Year` selectbox: `"Both"` or a concrete year. -/
inductive YearOpt where
  | both : YearOpt
  | year : Nat → YearOpt
deriving DecidableEq, Repr

/-- The sidebar `Working day filter` selectbox labels. -/
inductive WorkingDayOpt where
  | both : WorkingDayOpt
  | workingOnly : WorkingDayOpt
  | nonWorkingOnly : WorkingDayOpt
deriving DecidableEq, Repr

/-- `workingday_map = {"Both": None, "Working days only": 1,
"Non-working days only": 0}`. -/
def workingday_map : WorkingDayOpt → Option Nat
  | .both => none
  | .workingOnly => some 1
  | .nonWorkingOnly => some 0

/-- The full sidebar widget state consumed by the filter section:
`year_opt`, `season_opt`, `weather_opt`, `workingday_label`, the
`(min_hour, max_hour)` slider pair and the `use_registered` checkbox. -/
structure FilterSpec where
  year_opt : YearOpt
  season_opt : List String
  weather_opt : List Nat
  workingday_label : WorkingDayOpt
  min_hour : Nat
  max_hour : Nat
  use_registered : Bool
deriving DecidableEq, Repr

/-- The `Season` multiselect option list: `sorted(df["season_name"].dropna().unique())`.
`dropna` is `filterMap`, `unique` is `dedup`, `sorted` is `mergeSort`. -/
def season_options (df : List EnrichedRecord) : List String :=
  ((df.filterMap (fun r => r.season_name)).dedup).mergeSort (fun a b => a ≤ b)

/-- The sequential filter section of the source: start from `df.copy()`,
apply the year equality only when the selectbox is not `"Both"`, then the
`season_name.isin(season_opt)` test (a `NaN` season name never passes
`isin` against a list of strings), the `weather.isin(weather_opt)` test,
the inclusive hour-range test, and finally the workingday equality unless
the mapped value is `None`. -/
def df_filtered (spec : FilterSpec) (df : List EnrichedRecord) : List EnrichedRecord :=
  let d0 := df
  let d1 := match spec.year_opt with
    | .both => d0
    | .year y => d0.filter (fun r => r.year == y)
  let d2 := d1.filter (fun r =>
    match r.season_name with
    | some s => spec.season_opt.contains s
    | none => false)
  let d3 := d2.filter (fun r => spec.weather_opt.contains r.weather)
  let d4 := d3.filter (fun r =>
    decide (spec.min_hour ≤ r.hour.val) && decide (r.hour.val ≤ spec.max_hour))
  match workingday_map spec.workingday_label with
  | none => d4
  | some v => d4.filter (fun r => r.workingday == v)

/-- `target_col = "registered" if use_registered else "count"`, read off a row. -/
def target_col (use_registered : Bool) (r : EnrichedRecord) : Nat :=
  if use_registered then r.registered else r.count

/-- The first KPI: `df_filtered[target_col].sum()` (pandas sums an empty
integer series to `0`). -/
def total_rides (spec : FilterSpec) (df : List EnrichedRecord) : Nat :=
  ((df_filtered spec df).map (target_col spec.use_registered)).sum

/-- The second KPI: `df_filtered[target_col].mean()`, i.e. the sum divided by
the row count; pandas returns `NaN` on an empty series, modelled as `none`. -/
def mean_rides (spec : FilterSpec) (df : List EnrichedRecord) : Option ℚ :=
  let rows := df_filtered spec df
  if rows.isEmpty then none
  else some ((((rows.map (target_col spec.use_registered)).sum : Nat) : ℚ) / (rows.length : ℚ))

/-- The rows of one `groupby("hour")` group. -/
def hour_group (rows : List EnrichedRecord) (h : Nat) : List EnrichedRecord :=
  rows.filter (fun r => r.hour.val == h)

/-- The group mean `groupby("hour")[target_col].mean()` for one hour key. -/
def hour_mean (t : Bool) (rows : List EnrichedRecord) (h : Nat) : ℚ :=
  let g := hour_group rows h
  (((g.map (target_col t)).sum : Nat) : ℚ) / (g.length : ℚ)

/-- The `groupby("hour")` keys.  Pandas groups by the distinct key values in
ascending order (default `sort=True`); since every `hour` is in `[0, 23]`,
these are exactly the hours of `List.range 24` that occur in the rows. -/
def hours_present (rows : List EnrichedRecord) : List Nat :=
  (List.range 24).filter (fun h => rows.any (fun r => r.hour.val == h))

/-- The `groupby("hour")[target_col].mean()` series: the ascending group keys
paired with their group means. -/
def group_means (t : Bool) (rows : List EnrichedRecord) : List (Nat × ℚ) :=
  (hours_present rows).map (fun h => (h, hour_mean t rows h))

/-- `Series.idxmax`: the index label of the first occurrence of the maximal
value (a later entry replaces the current best only when strictly greater). -/
def idxmax : List (Nat × ℚ) → Option (Nat × ℚ)
  | [] => none
  | p :: rest =>
    match idxmax rest with
    | none => some p
    | some q => if q.2 > p.2 then some q else some p

/-- The third KPI: `groupby("hour")[target_col].mean().idxmax()` when the
filtered frame is non-empty, else the `"-"` sentinel (modelled as `none`). -/
def peak_hour (spec : FilterSpec) (df : List EnrichedRecord) : Option Nat :=
  let rows := df_filtered spec df
  if rows.isEmpty then none
  else (idxmax (group_means spec.use_registered rows)).map Prod.fst

/-- The process state visible to a filter evaluation: the cached enriched
dataset `df` produced once by `load_data`. -/
structure AppState where
  df : List EnrichedRecord
deriving DecidableEq

/-- The three KPI values rendered in the metrics card. -/
structure KpiMetrics where
  total : Nat
  mean : Option ℚ
  peak : Option Nat
deriving DecidableEq, Repr

/-- One user interaction: evaluate the filter section and the KPI card
against the cached dataset.  The source copies the frame
(`df_filtered = df.copy()`) and never rebinds `df`, so the step returns the
state unchanged alongside the computed metrics. -/
def render_kpis (s : AppState) (spec : FilterSpec) : AppState × KpiMetrics :=
  (s, { total := total_rides spec s.df
        mean := mean_rides spec s.df
        peak := peak_hour spec s.df })

/-! ## Helper predicates and lemmas -/

/-- The year filter as a per-row test: `True` bypass on `"Both"`. -/
def year_pass (yo : YearOpt) (r : EnrichedRecord) : Bool :=
  match yo with
  | .both => true
  | .year y => r.year == y

/-- The season membership test `season_name.isin(season_opt)`; a missing
season name never passes. -/
def season_pass (opts : List String) (r : EnrichedRecord) : Bool :=
  match r.season_name with
  | some s => opts.contains s
  | none => false

/-- The weather membership test `weather.isin(weather_opt)`. -/
def weather_pass (opts : List Nat) (r : EnrichedRecord) : Bool :=
  opts.contains r.weather

/-- The inclusive hour-range test `min_hour <= hour <= max_hour`. -/
def hour_pass (lo hi : Nat) (r : EnrichedRecord) : Bool :=
  decide (lo ≤ r.hour.val) && decide (r.hour.val ≤ hi)

/-- The working-day test: bypass when the mapped value is `None`. -/
def workingday_pass (w : WorkingDayOpt) (r : EnrichedRecord) : Bool :=
  match workingday_map w with
  | none => true
  | some v => r.workingday == v

/-- Conjunction of all per-row filter tests of a `FilterSpec`. -/
def passes (spec : FilterSpec) (r : EnrichedRecord) : Bool :=
  year_pass spec.year_opt r && season_pass spec.season_opt r &&
    weather_pass spec.weather_opt r && hour_pass spec.min_hour spec.max_hour r &&
    workingday_pass spec.workingday_label r

theorem df_filtered_eq_filter (spec : FilterSpec) (df : List EnrichedRecord) :
    df_filtered spec df = df.filter (passes spec) := by
  obtain ⟨yo, so, wo, wl, mn, mx, ur⟩ := spec
  cases yo <;> cases wl <;>
    simp only [df_filtered, passes, year_pass, season_pass, weather_pass, hour_pass,
      workingday_pass, workingday_map, List.filter_filter, Bool.true_and, Bool.and_true] <;>
    (apply List.filter_congr; intro r _;
     simp [passes, year_pass, season_pass, weather_pass, hour_pass, workingday_pass,
       workingday_map, Bool.and_comm, Bool.and_assoc, Bool.and_left_comm])

theorem mem_df_filtered {spec : FilterSpec} {df : List EnrichedRecord} {r : EnrichedRecord} :
    r ∈ df_filtered spec df ↔ r ∈ df ∧ passes spec r = true := by
  rw [df_filtered_eq_filter, List.mem_filter]

theorem df_filtered_sublist_helper (spec : FilterSpec) (df : List EnrichedRecord) :
    (df_filtered spec df).Sublist df := by
  rw [df_filtered_eq_filter]; exact List.filter_sublist df

theorem aggregates_of_empty {spec : FilterSpec} {df : List EnrichedRecord}
    (h : df_filtered spec df = []) :
    total_rides spec df = 0 ∧ mean_rides spec df = none ∧ peak_hour spec df = none := by
  refine ⟨?_, ?_, ?_⟩ <;> simp [total_rides, mean_rides, peak_hour, h]

theorem eq_nil_of_idxmax_eq_none : ∀ {l : List (Nat × ℚ)}, idxmax l = none → l = []
  | [], _ => rfl
  | p :: rest, h => by
    simp only [idxmax] at h
    split at h
    · exact absurd h (by simp)
    · split at h <;> exact absurd h (by simp)

theorem idxmax_mem_and_max : ∀ {l : List (Nat × ℚ)} {q : Nat × ℚ}, idxmax l = some q →
    q ∈ l ∧ ∀ p ∈ l, p.2 ≤ q.2 := by
  intro l
  induction l with
  | nil => intro q h; simp [idxmax] at h
  | cons p rest ih =>
    intro q h
    simp only [idxmax] at h
    split at h
    next hrest =>
      injection h with h; subst h
      have hnil : rest = [] := eq_nil_of_idxmax_eq_none hrest
      subst hnil
      exact ⟨List.mem_singleton.mpr rfl, by intro p' hp'; rw [List.mem_singleton.mp hp']⟩
    next q' hrest =>
      obtain ⟨hmem, hmax⟩ := ih hrest
      by_cases hgt : q'.2 > p.2
      · rw [if_pos hgt] at h; injection h with h; subst h
        refine ⟨List.mem_cons_of_mem p hmem, ?_⟩
        intro p' hp'
        rcases List.mem_cons.mp hp' with rfl | hp'
        · exact le_of_lt hgt
        · exact hmax p' hp'
      · rw [if_neg hgt] at h; injection h with h; subst h
        refine ⟨List.mem_cons_self p rest, ?_⟩
        intro p' hp'
        rcases List.mem_cons.mp hp' with rfl | hp'
        · exact le_refl _
        · exact le_trans (hmax p' hp') (not_lt.mp hgt)

theorem idxmax_first_of_sorted : ∀ {l : List (Nat × ℚ)},
    l.Pairwise (fun a b => a.1 < b.1) → ∀ {q : Nat × ℚ}, idxmax l = some q →
    ∀ p ∈ l, p.2 = q.2 → q.1 ≤ p.1 := by
  intro l
  induction l with
  | nil => intro _ q h; simp [idxmax] at h
  | cons p rest ih =>
    intro hpw q h p' hp' heq
    obtain ⟨hhead, htail⟩ := List.pairwise_cons.mp hpw
    simp only [idxmax] at h
    split at h
    next hrest =>
      injection h with h; subst h
      have hnil : rest = [] := eq_nil_of_idxmax_eq_none hrest
      subst hnil
      rw [List.mem_singleton.mp hp']
    next q' hrest =>
      by_cases hgt : q'.2 > p.2
      · rw [if_pos hgt] at h; injection h with h; subst h
        rcases List.mem_cons.mp hp' with rfl | hp'
        · exact absurd heq (ne_of_lt hgt)
        · exact ih htail hrest p' hp' heq
      · rw [if_neg hgt] at h; injection h with h; subst h
        rcases List.mem_cons.mp hp' with rfl | hp'
        · exact le_refl _
        · exact le_of_lt (hhead p' hp')

theorem mem_hours_present {rows : List EnrichedRecord} {h : Nat} :
    h ∈ hours_present rows ↔ ∃ r ∈ rows, r.hour.val = h := by
  simp only [hours_present, List.mem_filter, List.mem_range, List.any_eq_true, beq_iff_eq]
  constructor
  · rintro ⟨-, r, hr, hb⟩; exact ⟨r, hr, hb⟩
  · rintro ⟨r, hr, rfl⟩; exact ⟨r.hour.isLt, r, hr, rfl⟩

theorem hours_present_pairwise (rows : List EnrichedRecord) :
    (hours_present rows).Pairwise (fun a b => a < b) :=
  List.Pairwise.sublist (List.filter_sublist _) (List.pairwise_lt_range 24)

theorem group_means_pairwise (t : Bool) (rows : List EnrichedRecord) :
    (group_means t rows).Pairwise (fun a b => a.1 < b.1) := by
  unfold group_means
  exact List.pairwise_map.mpr (hours_present_pairwise rows)

theorem mem_group_means {t : Bool} {rows : List EnrichedRecord} {p : Nat × ℚ} :
    p ∈ group_means t rows ↔ p.1 ∈ hours_present rows ∧ p.2 = hour_mean t rows p.1 := by
  unfold group_means
  rw [List.mem_map]
  constructor
  · rintro ⟨h, hh, rfl⟩; exact ⟨hh, rfl⟩
  · rintro ⟨hh, hp⟩
    exact ⟨p.1, hh, by obtain ⟨p1, p2⟩ := p; simp only at hp; rw [hp]⟩

/-! ## Sample data used by the witnesses -/

/-- A concrete raw row: hour 1, spring, working day, clear weather, 5 rides. -/
def raw1 : RawRecord :=
  { datetime := { year := 2011, month := 1, day := 1, hour := 1 }
    season := 1, holiday := 0, workingday := 1, weather := 1
    temp := 0, atemp := 0, humidity := 0, windspeed := 0
    casual := 0, registered := 5, count := 5 }

/-- A second raw row at hour 2 with the same ride count, giving a peak tie. -/
def raw2 : RawRecord :=
  { raw1 with datetime := { year := 2011, month := 1, day := 1, hour := 2 } }

/-- A raw row whose season code 7 is outside the season lookup. -/
def rawBadSeason : RawRecord := { raw1 with season := 7 }

/-- The widget state that keeps every row: both years, all seasons, all
observed weather codes, any working-day value, full hour range. -/
def specAll : FilterSpec :=
  { year_opt := .both
    season_opt := ["spring", "summer", "fall", "winter"]
    weather_opt := [1, 2, 3, 4]
    workingday_label := .both
    min_hour := 0, max_hour := 23
    use_registered := false }

/-- The widget state with the season multiselect cleared. -/
def emptySeasonSpec : FilterSpec := { specAll with season_opt := [] }

/-- A widget state whose hour range is reversed. -/
def reversedHourSpec : FilterSpec := { specAll with min_hour := 10, max_hour := 2 }

/-- The enriched two-row sample dataset. -/
def sampleDf : List EnrichedRecord := load_data [raw1, raw2]

/-! ## Claim theorems -/

/-- Claim C1: for every non-empty filtered subset, the reported peak hour is
an hour present in the subset whose group-mean of the target metric is
maximal, and whenever several present hours attain that maximal group-mean,
the reported peak hour is the numerically smallest of them.  This holds
because `groupby` sorts the hour keys ascending and `idxmax` returns the
first index attaining the maximum. -/
theorem peak_hour_is_smallest_maximizer (spec : FilterSpec) (df : List EnrichedRecord)
    (hne : df_filtered spec df ≠ []) :
    ∃ p : Nat, peak_hour spec df = some p ∧
      p ∈ hours_present (df_filtered spec df) ∧
      (∀ h ∈ hours_present (df_filtered spec df),
        hour_mean spec.use_registered (df_filtered spec df) h
          ≤ hour_mean spec.use_registered (df_filtered spec df) p) ∧
      (∀ h ∈ hours_present (df_filtered spec df),
        hour_mean spec.use_registered (df_filtered spec df) h
          = hour_mean spec.use_registered (df_filtered spec df) p → p ≤ h) := by
  have hfalse : (df_filtered spec df).isEmpty = false := by
    cases he : (df_filtered spec df).isEmpty
    · rfl
    · exact absurd (List.isEmpty_iff.mp he) hne
  obtain ⟨r, hr⟩ := List.exists_mem_of_ne_nil _ hne
  have hhp : r.hour.val ∈ hours_present (df_filtered spec df) :=
    mem_hours_present.mpr ⟨r, hr, rfl⟩
  have hgm : (r.hour.val,
      hour_mean spec.use_registered (df_filtered spec df) r.hour.val)
        ∈ group_means spec.use_registered (df_filtered spec df) :=
    mem_group_means.mpr ⟨hhp, rfl⟩
  obtain ⟨q, hq⟩ : ∃ q,
      idxmax (group_means spec.use_registered (df_filtered spec df)) = some q := by
    cases hq' : idxmax (group_means spec.use_registered (df_filtered spec df)) with
    | none => exact absurd (eq_nil_of_idxmax_eq_none hq') (List.ne_nil_of_mem hgm)
    | some q => exact ⟨q, rfl⟩
  obtain ⟨hqmem, hqmax⟩ := idxmax_mem_and_max hq
  have hqfirst := idxmax_first_of_sorted (group_means_pairwise _ _) hq
  obtain ⟨hq1, hq2⟩ := mem_group_means.mp hqmem
  refine ⟨q.1, ?_, hq1, ?_, ?_⟩
  · simp [peak_hour, hfalse, hq]
  · intro h hh
    have := hqmax (h, hour_mean spec.use_registered (df_filtered spec df) h)
      (mem_group_means.mpr ⟨hh, rfl⟩)
    simpa [← hq2] using this
  · intro h hh heq
    exact hqfirst (h, hour_mean spec.use_registered (df_filtered spec df) h)
      (mem_group_means.mpr ⟨hh, rfl⟩) (by simpa [← hq2] using heq)

/-- Witness for C1 at a concrete tie: two rows with equal counts at hours 1
and 2 give tied maximal group-means, and the theorem applies. -/
theorem peak_hour_is_smallest_maximizer_witness :
    df_filtered specAll sampleDf ≠ [] ∧
    (∃ p : Nat, peak_hour specAll sampleDf = some p ∧
      p ∈ hours_present (df_filtered specAll sampleDf) ∧
      (∀ h ∈ hours_present (df_filtered specAll sampleDf),
        hour_mean specAll.use_registered (df_filtered specAll sampleDf) h
          ≤ hour_mean specAll.use_registered (df_filtered specAll sampleDf) p) ∧
      (∀ h ∈ hours_present (df_filtered specAll sampleDf),
        hour_mean specAll.use_registered (df_filtered specAll sampleDf) h
          = hour_mean specAll.use_registered (df_filtered specAll sampleDf) p → p ≤ h)) :=
  ⟨by decide, peak_hour_is_smallest_maximizer specAll sampleDf (by decide)⟩

/-- Claim C2: an empty filtered subset yields sum `0`, a mean that is the
undefined marker `none` (pandas `NaN`), distinguishable from `some 0`, a peak
hour that is the undefined marker `none` (the `"-"` sentinel), and the
computation is total, so no exception is raised. -/
theorem empty_subset_aggregates (spec : FilterSpec) (df : List EnrichedRecord)
    (h : df_filtered spec df = []) :
    total_rides spec df = 0 ∧ mean_rides spec df = none ∧
      mean_rides spec df ≠ some 0 ∧ peak_hour spec df = none := by
  obtain ⟨h1, h2, h3⟩ := aggregates_of_empty h
  exact ⟨h1, h2, by simp [h2], h3⟩

/-- Witness for C2: the cleared season multiselect empties the subset on the
sample dataset, and the theorem applies. -/
theorem empty_subset_aggregates_witness :
    df_filtered emptySeasonSpec sampleDf = [] ∧
    (total_rides emptySeasonSpec sampleDf = 0 ∧
      mean_rides emptySeasonSpec sampleDf = none ∧
      mean_rides emptySeasonSpec sampleDf ≠ some 0 ∧
      peak_hour emptySeasonSpec sampleDf = none) :=
  ⟨by decide, empty_subset_aggregates emptySeasonSpec sampleDf (by decide)⟩

/-- Claim C3: a row is in the filtered result iff it is in the dataset and
satisfies the conjunction of the dimension predicates: the year test is a
true bypass on `"Both"` (it constrains nothing), the season and weather
dimensions are always explicit membership tests, the hour-range test is
inclusive on both ends, and the working-day test is bypassed on `"Both"` and
otherwise compares the stored flag exactly. -/
theorem df_filtered_membership_characterization (spec : FilterSpec)
    (df : List EnrichedRecord) (r : EnrichedRecord) :
    r ∈ df_filtered spec df ↔
      r ∈ df ∧
      (∀ y, spec.year_opt = YearOpt.year y → r.year = y) ∧
      (∃ s, r.season_name = some s ∧ s ∈ spec.season_opt) ∧
      r.weather ∈ spec.weather_opt ∧
      (spec.min_hour ≤ r.hour.val ∧ r.hour.val ≤ spec.max_hour) ∧
      (∀ v, workingday_map spec.workingday_label = some v → r.workingday = v) := by
  rw [mem_df_filtered]
  refine and_congr_right fun _ => ?_
  obtain ⟨yo, so, wo, wl, mn, mx, ur⟩ := spec
  cases yo <;> cases wl <;> cases hs : r.season_name <;>
    simp [passes, year_pass, season_pass, weather_pass, hour_pass, workingday_pass,
      workingday_map, hs, and_assoc]

/-- Claim C4: the filtered rows are a subsequence of the enriched dataset,
every row in the result passes all active predicates, and every row of the
dataset that is excluded fails at least one active predicate. -/
theorem filtered_result_subset (spec : FilterSpec) (df : List EnrichedRecord) :
    (df_filtered spec df).Sublist df ∧
    (∀ r ∈ df_filtered spec df, passes spec r = true) ∧
    (∀ r ∈ df, r ∉ df_filtered spec df → passes spec r = false) := by
  refine ⟨df_filtered_sublist_helper spec df, ?_, ?_⟩
  · intro r hr
    exact (mem_df_filtered.mp hr).2
  · intro r hr hnot
    cases hp : passes spec r with
    | true => exact absurd (mem_df_filtered.mpr ⟨hr, hp⟩) hnot
    | false => rfl

/-- Witness for C4 at the concrete sample dataset and the keep-everything
widget state. -/
theorem filtered_result_subset_witness :
    (df_filtered specAll sampleDf).Sublist sampleDf ∧
    (∀ r ∈ df_filtered specAll sampleDf, passes specAll r = true) ∧
    (∀ r ∈ sampleDf, r ∉ df_filtered specAll sampleDf → passes specAll r = false) :=
  filtered_result_subset specAll sampleDf

/-- Claim C6: `get_day_period` assigns every hour in `[0, 23]` exactly one of
the four buckets, closed at the low end and exclusive at the high end. -/
theorem day_period_buckets (h : Nat) (hlt : h < 24) :
    (get_day_period h = "night" ↔ h < 6) ∧
    (get_day_period h = "morning" ↔ 6 ≤ h ∧ h < 12) ∧
    (get_day_period h = "afternoon" ↔ 12 ≤ h ∧ h < 18) ∧
    (get_day_period h = "evening" ↔ 18 ≤ h) ∧
    get_day_period h ∈ ["night", "morning", "afternoon", "evening"] := by
  revert hlt
  revert h
  decide

/-- Witness for C6 at the boundary hour 17. -/
theorem day_period_buckets_witness :
    (get_day_period 17 = "night" ↔ 17 < 6) ∧
    (get_day_period 17 = "morning" ↔ 6 ≤ 17 ∧ 17 < 12) ∧
    (get_day_period 17 = "afternoon" ↔ 12 ≤ 17 ∧ 17 < 18) ∧
    (get_day_period 17 = "evening" ↔ 18 ≤ 17) ∧
    get_day_period 17 ∈ ["night", "morning", "afternoon", "evening"] :=
  day_period_buckets 17 (by decide)

/-- Claim C7: on a non-empty filtered subset the reported total is the sum of
the target metric over the result rows and the reported mean is that total
divided by the number of result rows. -/
theorem total_mean_consistency (spec : FilterSpec) (df : List EnrichedRecord)
    (h : df_filtered spec df ≠ []) :
    total_rides spec df = ((df_filtered spec df).map (target_col spec.use_registered)).sum ∧
    mean_rides spec df =
      some ((total_rides spec df : ℚ) / ((df_filtered spec df).length : ℚ)) := by
  have hfalse : (df_filtered spec df).isEmpty = false := by
    cases he : (df_filtered spec df).isEmpty
    · rfl
    · exact absurd (List.isEmpty_iff.mp he) h
  exact ⟨rfl, by simp [mean_rides, total_rides, hfalse]⟩

/-- Witness for C7 at the concrete sample dataset. -/
theorem total_mean_consistency_witness :
    df_filtered specAll sampleDf ≠ [] ∧
    (total_rides specAll sampleDf
        = ((df_filtered specAll sampleDf).map (target_col specAll.use_registered)).sum ∧
      mean_rides specAll sampleDf =
        some ((total_rides specAll sampleDf : ℚ)
          / ((df_filtered specAll sampleDf).length : ℚ))) :=
  ⟨by decide, total_mean_consistency specAll sampleDf (by decide)⟩

/-- Claim C8: enrichment returns one enriched row per raw row, in the same
order (position `i` of the output is the enrichment of position `i` of the
input), and is a pure function, so enriching the same dataset twice yields
identical results.  Timestamps are already parsed in the embedding, so every
row is enriched. -/
theorem enrichment_shape_and_determinism (raws : List RawRecord) :
    (load_data raws).length = raws.length ∧
    (∀ i : Nat, (load_data raws)[i]? = (raws[i]?).map enrichRecord) ∧
    load_data raws = load_data raws := by
  refine ⟨by simp [load_data], ?_, rfl⟩
  intro i
  simp [load_data, List.getElem?_map]

/-- Claim C9: one filter-and-render interaction leaves the cached enriched
dataset untouched: the source filters a copy (`df.copy()`) and never rebinds
`df`, so the state after the step is the state before it. -/
theorem render_kpis_preserves_dataset (s : AppState) (spec : FilterSpec) :
    (render_kpis s spec).1 = s ∧ (render_kpis s spec).1.df = s.df :=
  ⟨rfl, rfl⟩

theorem season_map_mem_of_some {c : Nat} {s : String}
    (h : season_map c = some s) : s ∈ ["spring", "summer", "fall", "winter"] := by
  by_cases h1 : c = 1
  · simp [season_map, h1] at h; simp [← h]
  by_cases h2 : c = 2
  · simp [season_map, h1, h2] at h; simp [← h]
  by_cases h3 : c = 3
  · simp [season_map, h1, h2, h3] at h; simp [← h]
  by_cases h4 : c = 4
  · simp [season_map, h1, h2, h3, h4] at h; simp [← h]
  · simp [season_map, h1, h2, h3, h4] at h

/-- Claim C10: the season multiselect options are drawn only from the four
defined season names, and any record whose raw season code is outside
`{1, 2, 3, 4}` has `season_name = none`, which never passes the season
membership test, so the record is excluded from the filtered result under
every selectable season selection. -/
theorem unknown_season_code_excluded (raws : List RawRecord) (raw : RawRecord)
    (spec : FilterSpec) (hcode : raw.season ∉ ([1, 2, 3, 4] : List Nat)) :
    (∀ s ∈ season_options (load_data raws), s ∈ ["spring", "summer", "fall", "winter"]) ∧
    (enrichRecord raw).season_name = none ∧
    enrichRecord raw ∉ df_filtered spec (load_data raws) := by
  simp only [List.mem_cons, List.not_mem_nil, or_false, not_or] at hcode
  obtain ⟨h1, h2, h3, h4⟩ := hcode
  have hmap : season_map raw.season = none := by
    simp [season_map, h1, h2, h3, h4]
  refine ⟨?_, hmap, ?_⟩
  · intro s hs
    simp only [season_options, List.mem_mergeSort, List.mem_dedup,
      List.mem_filterMap, load_data, List.mem_map] at hs
    obtain ⟨r, ⟨r0, -, rfl⟩, hsn⟩ := hs
    exact season_map_mem_of_some hsn
  · intro hmem
    have hp := (mem_df_filtered.mp hmem).2
    simp [passes, season_pass, enrichRecord, hmap, Bool.and_eq_true] at hp

/-- Witness for C10: the row with season code 7 is excluded from the sample
dataset under the keep-everything widget state. -/
theorem unknown_season_code_excluded_witness :
    (rawBadSeason.season ∉ ([1, 2, 3, 4] : List Nat)) ∧
    ((∀ s ∈ season_options (load_data [raw1, raw2]),
        s ∈ ["spring", "summer", "fall", "winter"]) ∧
      (enrichRecord rawBadSeason).season_name = none ∧
      enrichRecord rawBadSeason ∉ df_filtered specAll (load_data [raw1, raw2])) :=
  ⟨by decide, unknown_season_code_excluded [raw1, raw2] rawBadSeason specAll (by decide)⟩

/-- Modelled from the spec: the construction-time validation that the spec
prescribes for `FilterSpec` (`InvalidFilterSpec`, §7) but that is absent from
the dashboard source — reject an empty season set and a reversed hour
range with a validation error. -/
def validate_filter_spec (spec : FilterSpec) : Except String FilterSpec :=
  if spec.season_opt = [] then Except.error "empty season set"
  else if spec.max_hour < spec.min_hour then Except.error "hour range reversed"
  else Except.ok spec

/-- Claim C5 counterexample: the spec-prescribed validation rejects the
cleared season multiselect, but the source performs no such rejection — the
contradictory widget state flows through the filter section and produces the
ordinary empty-subset outputs. -/
theorem empty_season_spec_silently_accepted :
    validate_filter_spec emptySeasonSpec = Except.error "empty season set" ∧
    df_filtered emptySeasonSpec sampleDf = [] ∧
    total_rides emptySeasonSpec sampleDf = 0 ∧
    mean_rides emptySeasonSpec sampleDf = none ∧
    peak_hour emptySeasonSpec sampleDf = none := by
  refine ⟨rfl, by decide, by decide, by decide, by decide⟩

/-- Claim C5 amended: the source has no construction-time validation; a
logically contradictory widget state (an empty season set or a reversed hour
range) is accepted silently, but it always yields an empty filtered subset
with sum `0` and undefined mean and peak hour — never a misleading non-empty
result. -/
theorem contradictory_spec_yields_empty (spec : FilterSpec) (df : List EnrichedRecord)
    (h : spec.season_opt = [] ∨ spec.max_hour < spec.min_hour) :
    df_filtered spec df = [] ∧ total_rides spec df = 0 ∧
      mean_rides spec df = none ∧ peak_hour spec df = none := by
  have hempty : df_filtered spec df = [] := by
    rw [List.eq_nil_iff_forall_not_mem]
    intro r hmem
    have hp := (mem_df_filtered.mp hmem).2
    have hs : season_pass spec.season_opt r = true := by
      simp only [passes, Bool.and_eq_true] at hp; tauto
    have hh : hour_pass spec.min_hour spec.max_hour r = true := by
      simp only [passes, Bool.and_eq_true] at hp; tauto
    rcases h with h | h
    · rw [h] at hs
      cases hrs : r.season_name <;> simp [season_pass, hrs] at hs
    · simp only [hour_pass, Bool.and_eq_true, decide_eq_true_eq] at hh
      omega
  obtain ⟨h1, h2, h3⟩ := aggregates_of_empty hempty
  exact ⟨hempty, h1, h2, h3⟩

/-- Witness for the amended C5 at the reversed hour range. -/
theorem contradictory_spec_yields_empty_witness :
    (reversedHourSpec.season_opt = [] ∨
      reversedHourSpec.max_hour < reversedHourSpec.min_hour) ∧
    (df_filtered reversedHourSpec sampleDf = [] ∧
      total_rides reversedHourSpec sampleDf = 0 ∧
      mean_rides reversedHourSpec sampleDf = none ∧
      peak_hour reversedHourSpec sampleDf = none) :=
  ⟨Or.inr (by decide), contradictory_spec_yields_empty reversedHourSpec sampleDf
    (Or.inr (by decide))⟩

end BikeDashboard
